import Mathlib

/-
  Verification of the baasix-mcp server core (request-dispatch core):
  authentication-token lifecycle (getAuthToken), the HTTP proxy with its
  single credential-expiry retry (baasixRequest), the tool registry and
  dispatcher (setupHandlers switch), and the configuration loader
  (loadEnvironmentConfig / validateConfig / createConfig).

  Shallow embedding conventions:
  * JavaScript nullable strings are `Option String`; JS truthiness of a
    string value (null/undefined/"" are falsy) is `truthyStr`.
  * The mutable module-level globals `authToken` / `authExpiry` are the
    explicit state `AuthState`, threaded through every operation.
  * `Date.now()` is an explicit `now : Nat` (milliseconds).
  * The backend is an oracle: the outcome the backend would give to the
    n-th login exchange / n-th proxied request of one invocation is passed
    in as `LoginOutcome` / `HttpOutcome` values.  A single invocation
    performs at most two logins and two proxied requests, so four oracle
    values suffice.
  * Axios error objects are collapsed to their resolved pieces: the
    optional response status and the message string that
    `error.response?.data?.message || error.message` would produce.
  * Request methods, bodies and query-string percent-encoding are opaque
    payloads the core forwards unmodified (spec section 1); endpoints are
    modelled as the interpolated path plus a plain `k=v&...` rendering of
    the URLSearchParams appended in source order.  Argument values are
    modelled as opaque strings.
-/

namespace Baasix

/-- JS truthiness of a nullable string: null/undefined and "" are falsy. -/
def truthyStr : Option String → Bool
  | none => false
  | some s => s ≠ ""

/-- JS truthiness of a nullable number (the `authExpiry` global): null and 0 are falsy. -/
def truthyNat : Option Nat → Bool
  | none => false
  | some n => n ≠ 0

/-- The module-level constants of index.js after `loadEnvironmentConfig()`:
BAASIX_URL, BAASIX_AUTH_TOKEN, BAASIX_EMAIL, BAASIX_PASSWORD. -/
structure ServerConfig where
  BAASIX_URL : String
  BAASIX_AUTH_TOKEN : Option String
  BAASIX_EMAIL : Option String
  BAASIX_PASSWORD : Option String
deriving Repr, DecidableEq

/-- The mutable authentication globals of index.js: `authToken` and `authExpiry`. -/
structure AuthState where
  authToken : Option String
  authExpiry : Option Nat
deriving Repr, DecidableEq

/-- Both globals start as `null`. -/
def initialAuthState : AuthState := ⟨none, none⟩

/-- Outcome the backend gives to one POST /auth/login exchange.  On failure the
message is the resolved `error.response?.data?.message || error.message`. -/
inductive LoginOutcome where
  | success (token : String)
  | failure (message : String)
deriving Repr, DecidableEq

/-- Outcome the backend gives to one proxied request.  `error` carries
`error.response?.status` and the resolved upstream message. -/
inductive HttpOutcome where
  | success (data : String)
  | error (status : Option Nat) (message : String)
deriving Repr, DecidableEq

/-- A settled JS promise: resolved value or thrown error message. -/
inductive Res where
  | ok (value : String)
  | err (message : String)
deriving Repr, DecidableEq

/-- Result of one `getAuthToken()` call: the returned token or thrown error,
the state of the globals afterwards, and how many login exchanges were made. -/
structure AuthResult where
  result : Res
  state : AuthState
  logins : Nat
deriving Repr, DecidableEq

/-- The guard of priority 2 in getAuthToken:
`authToken && authExpiry && Date.now() < authExpiry`. -/
def cachedTokenValid (st : AuthState) (now : Nat) : Bool :=
  truthyStr st.authToken && truthyNat st.authExpiry && decide (now < st.authExpiry.getD 0)

/-- The message of the final `throw` in getAuthToken. -/
def noAuthMsg : String :=
  "No authentication method available. Please provide BAASIX_AUTH_TOKEN or BAASIX_EMAIL/BAASIX_PASSWORD"

/-- index.js getAuthToken (lines 27-56).  Priority 1: explicit token.
Priority 2: cached token still valid.  Priority 3: login exchange with
email/password, caching the returned token for 60*60*1000 ms.  Otherwise the
no-authentication-method error. -/
def getAuthToken (cfg : ServerConfig) (login : LoginOutcome) (now : Nat)
    (st : AuthState) : AuthResult :=
  if truthyStr cfg.BAASIX_AUTH_TOKEN then
    ⟨.ok (cfg.BAASIX_AUTH_TOKEN.getD ""), st, 0⟩
  else if cachedTokenValid st now then
    ⟨.ok (st.authToken.getD ""), st, 0⟩
  else if truthyStr cfg.BAASIX_EMAIL && truthyStr cfg.BAASIX_PASSWORD then
    match login with
    | .success tok => ⟨.ok tok, ⟨some tok, some (now + 60 * 60 * 1000)⟩, 1⟩
    | .failure msg => ⟨.err ("Authentication failed: " ++ msg), st, 1⟩
  else
    ⟨.err noAuthMsg, st, 0⟩

/-- The wrap applied by both `throw` sites of baasixRequest's catch blocks. -/
def apiErr (msg : String) : String := "Baasix API Error: " ++ msg

/-- Result of one `baasixRequest()` call: resolved data or thrown error, the
globals afterwards, the number of login exchanges, and the list of proxied
(non-login) requests that were issued, in order. -/
structure ReqResult where
  result : Res
  state : AuthState
  logins : Nat
  requests : List String
deriving Repr, DecidableEq

/-- index.js baasixRequest (lines 59-95).  Gets a token (a thrown
authentication error propagates unwrapped, since the call is outside the try
block), issues the request, and on a 401 with a truthy cached token in
email/password mode clears the globals, re-acquires a token and retries
exactly once; every other failure, and a retry failure, is wrapped as
`Baasix API Error: ...`.  If the re-acquired token is falsy the retry is
skipped and the original error is wrapped. -/
def baasixRequest (cfg : ServerConfig) (login1 : LoginOutcome) (req1 : HttpOutcome)
    (login2 : LoginOutcome) (req2 : HttpOutcome) (now : Nat) (st : AuthState)
    (endpoint : String) : ReqResult :=
  let a1 := getAuthToken cfg login1 now st
  match a1.result with
  | .err e => ⟨.err e, a1.state, a1.logins, []⟩
  | .ok _token =>
    match req1 with
    | .success data => ⟨.ok data, a1.state, a1.logins, [endpoint]⟩
    | .error status msg =>
      if decide (status = some 401) && truthyStr a1.state.authToken
          && !truthyStr cfg.BAASIX_AUTH_TOKEN then
        let a2 := getAuthToken cfg login2 now ⟨none, none⟩
        match a2.result with
        | .err e2 => ⟨.err (apiErr e2), a2.state, a1.logins + a2.logins, [endpoint]⟩
        | .ok newToken =>
          if newToken ≠ "" then
            match req2 with
            | .success data2 =>
              ⟨.ok data2, a2.state, a1.logins + a2.logins, [endpoint, endpoint]⟩
            | .error _ msg2 =>
              ⟨.err (apiErr msg2), a2.state, a1.logins + a2.logins, [endpoint, endpoint]⟩
          else
            ⟨.err (apiErr msg), a2.state, a1.logins + a2.logins, [endpoint]⟩
      else
        ⟨.err (apiErr msg), a1.state, a1.logins, [endpoint]⟩

/-- The MCP error codes used by the dispatcher. -/
inductive ErrCode where
  | MethodNotFound
  | InvalidParams
  | InternalError
deriving Repr, DecidableEq

/-- What one CallTool invocation produces at the protocol boundary: a normal
result envelope (the list of text content elements) or a thrown McpError. -/
inductive ToolOutcome where
  | envelope (texts : List String)
  | protocolError (code : ErrCode) (message : String)
deriving Repr, DecidableEq

/-- Result of dispatching one invocation: the protocol outcome, the
authentication globals afterwards, the number of login exchanges, and the
proxied (non-login) requests issued, in order. -/
structure DispatchResult where
  outcome : ToolOutcome
  state : AuthState
  logins : Nat
  requests : List String
deriving Repr, DecidableEq

/-- A tool invocation's `arguments` mapping.  Values are modelled as opaque
strings (numbers, arrays and objects are collapsed to their serialization,
which no claim inspects); an absent key is `none`. -/
def Args : Type := String → Option String

/-- Build an argument mapping from explicit pairs. -/
def argsOf (l : List (String × String)) : Args := fun k =>
  (l.find? (fun p => p.1 == k)).map Prod.snd

/-- JS template-literal interpolation of an argument: `undefined` when absent. -/
def argStr (a : Args) (key : String) : String :=
  match a key with
  | some v => v
  | none => "undefined"

/-- Argument with a JS destructuring default (applies only when absent). -/
def argD (a : Args) (key dflt : String) : String :=
  match a key with
  | some v => v
  | none => dflt

/-- URLSearchParams rendering, in append order.  Percent-encoding is omitted:
query strings are opaque payloads no claim inspects. -/
def renderParams (ps : List (String × String)) : String :=
  String.intercalate "&" (ps.map (fun p => p.1 ++ "=" ++ p.2))

/-- Params of handleListSchemas: search (if truthy), page and limit (if
present), and sort with its destructuring default. -/
def listSchemasPath (a : Args) : String :=
  let ps :=
    (match a "search" with
      | some s => if s ≠ "" then [("search", s)] else []
      | none => [])
    ++ (match a "page" with | some p => [("page", p)] | none => [])
    ++ (match a "limit" with | some l => [("limit", l)] | none => [])
    ++ [("sort", argD a "sort" "collectionName:asc")]
  "/schemas?" ++ renderParams ps

/-- Params of handleListItems: filter and sort if truthy, page and limit with
destructuring defaults 1 and 10. -/
def listItemsPath (a : Args) : String :=
  let ps :=
    (match a "filter" with
      | some f => if f ≠ "" then [("filter", f)] else []
      | none => [])
    ++ (match a "sort" with
      | some s => if s ≠ "" then [("sort", s)] else []
      | none => [])
    ++ [("page", argD a "page" "1"), ("limit", argD a "limit" "10")]
  "/items/" ++ argStr a "collection" ++ "?" ++ renderParams ps

/-- Params of handleListFiles: filter if truthy, page and limit defaults. -/
def listFilesPath (a : Args) : String :=
  let ps :=
    (match a "filter" with
      | some f => if f ≠ "" then [("filter", f)] else []
      | none => [])
    ++ [("page", argD a "page" "1"), ("limit", argD a "limit" "10")]
  "/files?" ++ renderParams ps

/-- Params of handleGenerateReport: groupBy, filter, dateRange if truthy. -/
def generateReportPath (a : Args) : String :=
  let ps :=
    (match a "groupBy" with
      | some g => if g ≠ "" then [("groupBy", g)] else []
      | none => [])
    ++ (match a "filter" with
      | some f => if f ≠ "" then [("filter", f)] else []
      | none => [])
    ++ (match a "dateRange" with
      | some d => if d ≠ "" then [("dateRange", d)] else []
      | none => [])
  "/reports/" ++ argStr a "collection" ++ "?" ++ renderParams ps

/-- Params of handleGetStats: collections and timeframe if truthy. -/
def statsPath (a : Args) : String :=
  let ps :=
    (match a "collections" with
      | some c => if c ≠ "" then [("collections", c)] else []
      | none => [])
    ++ (match a "timeframe" with
      | some t => if t ≠ "" then [("timeframe", t)] else []
      | none => [])
  "/reports/stats?" ++ renderParams ps

/-- Params of handleListNotifications: page and limit defaults, seen if present. -/
def listNotifPath (a : Args) : String :=
  let ps := [("page", argD a "page" "1"), ("limit", argD a "limit" "10")]
    ++ (match a "seen" with | some s => [("seen", s)] | none => [])
  "/notifications?" ++ renderParams ps

/-- Params of handleListPermissions: filter and sort if truthy, page and limit
defaults. -/
def listPermsPath (a : Args) : String :=
  let ps :=
    (match a "filter" with
      | some f => if f ≠ "" then [("filter", f)] else []
      | none => [])
    ++ (match a "sort" with
      | some s => if s ≠ "" then [("sort", s)] else []
      | none => [])
    ++ [("page", argD a "page" "1"), ("limit", argD a "limit" "10")]
  "/permissions?" ++ renderParams ps

/-- handleGetSettings: `/settings/key` when key is truthy, else `/settings`. -/
def getSettingsPath (a : Args) : String :=
  match a "key" with
  | some k => if k ≠ "" then "/settings/" ++ k else "/settings"
  | none => "/settings"

/-- Params of handleVerifyInvite: link if truthy. -/
def verifyInvitePath (a : Args) : String :=
  let ps :=
    (match a "link" with
      | some l => if l ≠ "" then [("link", l)] else []
      | none => [])
  "/auth/verify-invite/" ++ argStr a "token" ++ "?" ++ renderParams ps

/-- Params of handleGetCurrentUser: fields if truthy (array collapsed to its
joined rendering). -/
def currentUserPath (a : Args) : String :=
  let ps :=
    (match a "fields" with
      | some f => if f ≠ "" then [("fields", f)] else []
      | none => [])
  "/auth/me?" ++ renderParams ps

/-- How the switch serves one tool: a plain proxy handler (its endpoint built
from the arguments; method and body are opaque and not modelled), or one of
the three handlers with their own try/catch behavior. -/
inductive HandlerKind where
  | proxy (path : Args → String)
  | authStatus
  | refreshAuth
  | serverInfo

/-- The dispatcher switch of setupHandlers (lines 1154-1271), in source
order: tool name to handler. -/
def toolTable : List (String × HandlerKind) := [
  ("baasix_list_schemas", .proxy listSchemasPath),
  ("baasix_get_schema", .proxy (fun a => "/schemas/" ++ argStr a "collection")),
  ("baasix_create_schema", .proxy (fun a => "/schemas/" ++ argStr a "collection")),
  ("baasix_update_schema", .proxy (fun a => "/schemas/" ++ argStr a "collection")),
  ("baasix_delete_schema", .proxy (fun a => "/schemas/" ++ argStr a "collection")),
  ("baasix_add_index", .proxy (fun a => "/schemas/" ++ argStr a "collection" ++ "/indexes")),
  ("baasix_remove_index", .proxy (fun a =>
    "/schemas/" ++ argStr a "collection" ++ "/indexes/" ++ argStr a "indexName")),
  ("baasix_create_relationship", .proxy (fun a =>
    "/schemas/" ++ argStr a "sourceCollection" ++ "/relationships")),
  ("baasix_update_relationship", .proxy (fun a =>
    "/schemas/" ++ argStr a "sourceCollection" ++ "/relationships/" ++ argStr a "fieldName")),
  ("baasix_delete_relationship", .proxy (fun a =>
    "/schemas/" ++ argStr a "sourceCollection" ++ "/relationships/" ++ argStr a "fieldName")),
  ("baasix_export_schemas", .proxy (fun _ => "/schemas-export")),
  ("baasix_import_schemas", .proxy (fun _ => "/schemas-import")),
  ("baasix_list_items", .proxy listItemsPath),
  ("baasix_get_item", .proxy (fun a =>
    "/items/" ++ argStr a "collection" ++ "/" ++ argStr a "id")),
  ("baasix_create_item", .proxy (fun a => "/items/" ++ argStr a "collection")),
  ("baasix_update_item", .proxy (fun a =>
    "/items/" ++ argStr a "collection" ++ "/" ++ argStr a "id")),
  ("baasix_delete_item", .proxy (fun a =>
    "/items/" ++ argStr a "collection" ++ "/" ++ argStr a "id")),
  ("baasix_list_files", .proxy listFilesPath),
  ("baasix_get_file_info", .proxy (fun a => "/files/" ++ argStr a "id")),
  ("baasix_delete_file", .proxy (fun a => "/files/" ++ argStr a "id")),
  ("baasix_auth_status", .authStatus),
  ("baasix_refresh_auth", .refreshAuth),
  ("baasix_generate_report", .proxy generateReportPath),
  ("baasix_collection_stats", .proxy statsPath),
  ("baasix_list_notifications", .proxy listNotifPath),
  ("baasix_send_notification", .proxy (fun _ => "/notifications")),
  ("baasix_mark_notification_seen", .proxy (fun a =>
    "/notifications/" ++ argStr a "id" ++ "/seen")),
  ("baasix_get_settings", .proxy getSettingsPath),
  ("baasix_update_settings", .proxy (fun _ => "/settings")),
  ("baasix_list_roles", .proxy (fun _ => "/permissions/roles")),
  ("baasix_list_permissions", .proxy listPermsPath),
  ("baasix_get_permission", .proxy (fun a => "/permissions/" ++ argStr a "id")),
  ("baasix_get_permissions", .proxy (fun a => "/permissions/" ++ argStr a "role")),
  ("baasix_create_permission", .proxy (fun _ => "/permissions")),
  ("baasix_update_permission", .proxy (fun a => "/permissions/" ++ argStr a "id")),
  ("baasix_delete_permission", .proxy (fun a => "/permissions/" ++ argStr a "id")),
  ("baasix_reload_permissions", .proxy (fun _ => "/permissions/reload")),
  ("baasix_update_permissions", .proxy (fun a => "/permissions/" ++ argStr a "role")),
  ("baasix_server_info", .serverInfo),
  ("baasix_sort_items", .proxy (fun a => "/utils/sort/" ++ argStr a "collection")),
  ("baasix_register_user", .proxy (fun _ => "/auth/register")),
  ("baasix_login", .proxy (fun _ => "/auth/login")),
  ("baasix_send_invite", .proxy (fun _ => "/auth/invite")),
  ("baasix_verify_invite", .proxy verifyInvitePath),
  ("baasix_send_magic_link", .proxy (fun _ => "/auth/magiclink")),
  ("baasix_get_user_tenants", .proxy (fun _ => "/auth/tenants")),
  ("baasix_switch_tenant", .proxy (fun _ => "/auth/switch-tenant")),
  ("baasix_logout", .proxy (fun _ => "/auth/logout")),
  ("baasix_get_current_user", .proxy currentUserPath)]

/-- The tool catalog advertised by the ListTools handler (lines 129-1148), in
registry order.  These are the registered tool names. -/
def advertisedToolNames : List String := [
  "baasix_list_schemas", "baasix_get_schema", "baasix_create_schema",
  "baasix_update_schema", "baasix_delete_schema", "baasix_add_index",
  "baasix_remove_index", "baasix_create_relationship",
  "baasix_update_relationship", "baasix_delete_relationship",
  "baasix_export_schemas", "baasix_import_schemas", "baasix_list_items",
  "baasix_get_item", "baasix_create_item", "baasix_update_item",
  "baasix_delete_item", "baasix_list_files", "baasix_get_file_info",
  "baasix_delete_file", "baasix_auth_status", "baasix_refresh_auth",
  "baasix_generate_report", "baasix_collection_stats",
  "baasix_list_notifications", "baasix_send_notification",
  "baasix_mark_notification_seen", "baasix_get_settings",
  "baasix_update_settings", "baasix_list_roles", "baasix_list_permissions",
  "baasix_get_permission", "baasix_get_permissions",
  "baasix_create_permission", "baasix_update_permission",
  "baasix_delete_permission", "baasix_reload_permissions",
  "baasix_update_permissions", "baasix_server_info", "baasix_sort_items",
  "baasix_register_user", "baasix_login", "baasix_send_invite",
  "baasix_verify_invite", "baasix_send_magic_link",
  "baasix_get_user_tenants", "baasix_switch_tenant", "baasix_logout",
  "baasix_get_current_user"]

/-- The `required` arrays of each advertised tool's inputSchema (top level
only); empty when the schema declares none. -/
def requiredFields : String → List String
  | "baasix_get_schema" => ["collection"]
  | "baasix_create_schema" => ["collection", "schema"]
  | "baasix_update_schema" => ["collection", "schema"]
  | "baasix_delete_schema" => ["collection"]
  | "baasix_add_index" => ["collection", "indexDefinition"]
  | "baasix_remove_index" => ["collection", "indexName"]
  | "baasix_create_relationship" => ["sourceCollection", "relationshipData"]
  | "baasix_update_relationship" => ["sourceCollection", "fieldName", "updateData"]
  | "baasix_delete_relationship" => ["sourceCollection", "fieldName"]
  | "baasix_import_schemas" => ["schemas"]
  | "baasix_list_items" => ["collection"]
  | "baasix_get_item" => ["collection", "id"]
  | "baasix_create_item" => ["collection", "data"]
  | "baasix_update_item" => ["collection", "id", "data"]
  | "baasix_delete_item" => ["collection", "id"]
  | "baasix_get_file_info" => ["id"]
  | "baasix_delete_file" => ["id"]
  | "baasix_generate_report" => ["collection"]
  | "baasix_send_notification" => ["recipients", "title", "message"]
  | "baasix_mark_notification_seen" => ["id"]
  | "baasix_update_settings" => ["settings"]
  | "baasix_get_permission" => ["id"]
  | "baasix_get_permissions" => ["role"]
  | "baasix_create_permission" => ["role_Id", "collection", "action"]
  | "baasix_update_permission" => ["id"]
  | "baasix_delete_permission" => ["id"]
  | "baasix_update_permissions" => ["role", "permissions"]
  | "baasix_sort_items" => ["collection", "item", "to"]
  | "baasix_register_user" => ["email", "password"]
  | "baasix_login" => ["email", "password"]
  | "baasix_send_invite" => ["email", "role_Id", "link"]
  | "baasix_verify_invite" => ["token"]
  | "baasix_send_magic_link" => ["email"]
  | "baasix_switch_tenant" => ["tenant_Id"]
  | _ => []

/-- Render a JS boolean. -/
def boolStr : Bool → String
  | true => "true"
  | false => "false"

/-- `new Date(ms).toISOString()`, abstracted to the millisecond value it
renders (the calendar formatting is irrelevant to every claim). -/
def isoOf (ms : Nat) : String := "date-ms:" ++ toString ms

/-- The auth_method field of handleAuthStatus. -/
def authMethodStr (cfg : ServerConfig) : String :=
  if truthyStr cfg.BAASIX_AUTH_TOKEN then "Manual Token"
  else if truthyStr cfg.BAASIX_EMAIL then "Auto-login"
  else "None"

/-- `BAASIX_EMAIL || "Not configured"`. -/
def configuredUserStr (cfg : ServerConfig) : String :=
  if truthyStr cfg.BAASIX_EMAIL then cfg.BAASIX_EMAIL.getD "" else "Not configured"

/-- The status body of handleAuthStatus's try branch (field order as in the
source's JSON.stringify). -/
def authStatusOkText (cfg : ServerConfig) (st : AuthState) (now : Nat)
    (tok : String) : String :=
  "auth_method: " ++ authMethodStr cfg
  ++ ", configured_user: " ++ configuredUserStr cfg
  ++ ", manual_token_provided: " ++ boolStr (truthyStr cfg.BAASIX_AUTH_TOKEN)
  ++ ", authenticated: " ++ boolStr (tok ≠ "")
  ++ ", auto_login_expires: "
  ++ (if truthyNat st.authExpiry then isoOf (st.authExpiry.getD 0) else "N/A")
  ++ ", auto_login_valid: " ++ boolStr (cachedTokenValid st now)

/-- The body of handleAuthStatus's catch branch. -/
def authStatusErrText (cfg : ServerConfig) (msg : String) : String :=
  "error: " ++ msg
  ++ ", auth_method: None"
  ++ ", manual_token_provided: " ++ boolStr (truthyStr cfg.BAASIX_AUTH_TOKEN)
  ++ ", configured_user: " ++ configuredUserStr cfg

/-- handleRefreshAuth's body in explicit-token mode. -/
def manualRefreshText : String :=
  "message: Using manual token (BAASIX_AUTH_TOKEN), no refresh needed, auth_method: Manual Token"

/-- handleRefreshAuth's body when the forced refresh succeeded. -/
def refreshOkText (cfg : ServerConfig) (st : AuthState) (tok : String) : String :=
  "success: " ++ boolStr (tok ≠ "")
  ++ ", user: " ++ configuredUserStr cfg
  ++ ", token_received: " ++ boolStr (tok ≠ "")
  ++ ", expires: "
  ++ (if truthyNat st.authExpiry then isoOf (st.authExpiry.getD 0) else "Unknown")
  ++ ", auth_method: Auto-login"

/-- handleRefreshAuth's body when the forced refresh threw. -/
def refreshErrText (cfg : ServerConfig) (msg : String) : String :=
  "success: false, error: " ++ msg ++ ", user: " ++ configuredUserStr cfg

/-- handleServerInfo's body on success (process uptime/memory/timestamp are
runtime values outside the model). -/
def serverInfoOkText (cfg : ServerConfig) (data : String) : String :=
  "baasix_server: " ++ data ++ ", mcp_server: baasix-mcp-server 1.0.0 at "
  ++ cfg.BAASIX_URL

/-- handleServerInfo's body when the info request threw. -/
def serverInfoErrText (cfg : ServerConfig) : String :=
  "error: Could not fetch Baasix server info, mcp_server: baasix-mcp-server 1.0.0 at "
  ++ cfg.BAASIX_URL

/-- A plain proxy handler: one baasixRequest, its resolved data wrapped into
the text envelope; any thrown error reaches the dispatcher's catch, which
converts non-McpError exceptions to InternalError (lines 1279-1289). -/
def runProxy (cfg : ServerConfig) (l1 : LoginOutcome) (q1 : HttpOutcome)
    (l2 : LoginOutcome) (q2 : HttpOutcome) (now : Nat) (st : AuthState)
    (path : String) : DispatchResult :=
  let r := baasixRequest cfg l1 q1 l2 q2 now st path
  match r.result with
  | .ok data => ⟨.envelope [data], r.state, r.logins, r.requests⟩
  | .err m =>
    ⟨.protocolError .InternalError ("Tool execution failed: " ++ m),
      r.state, r.logins, r.requests⟩

/-- handleAuthStatus (lines 1569-1600): its own try/catch turns even an
authentication failure into a normal status envelope. -/
def handleAuthStatus (cfg : ServerConfig) (l1 : LoginOutcome) (now : Nat)
    (st : AuthState) : DispatchResult :=
  let a := getAuthToken cfg l1 now st
  match a.result with
  | .ok tok =>
    ⟨.envelope [authStatusOkText cfg a.state now tok], a.state, a.logins, []⟩
  | .err m => ⟨.envelope [authStatusErrText cfg m], a.state, a.logins, []⟩

/-- handleRefreshAuth (lines 1602-1647): no-op message in explicit-token
mode; otherwise clears the globals and re-runs getAuthToken, reporting either
outcome as a normal envelope. -/
def handleRefreshAuth (cfg : ServerConfig) (l1 : LoginOutcome) (now : Nat)
    (st : AuthState) : DispatchResult :=
  if truthyStr cfg.BAASIX_AUTH_TOKEN then
    ⟨.envelope [manualRefreshText], st, 0, []⟩
  else
    let a := getAuthToken cfg l1 now ⟨none, none⟩
    match a.result with
    | .ok tok => ⟨.envelope [refreshOkText cfg a.state tok], a.state, a.logins, []⟩
    | .err m => ⟨.envelope [refreshErrText cfg m], a.state, a.logins, []⟩

/-- handleServerInfo (lines 1870-1909): proxies /utils/info but catches its
own errors into an envelope. -/
def handleServerInfo (cfg : ServerConfig) (l1 : LoginOutcome) (q1 : HttpOutcome)
    (l2 : LoginOutcome) (q2 : HttpOutcome) (now : Nat) (st : AuthState) :
    DispatchResult :=
  let r := baasixRequest cfg l1 q1 l2 q2 now st "/utils/info"
  match r.result with
  | .ok data => ⟨.envelope [serverInfoOkText cfg data], r.state, r.logins, r.requests⟩
  | .err _ => ⟨.envelope [serverInfoErrText cfg], r.state, r.logins, r.requests⟩

/-- Execute the handler a switch case routes to. -/
def runHandler (cfg : ServerConfig) (l1 : LoginOutcome) (q1 : HttpOutcome)
    (l2 : LoginOutcome) (q2 : HttpOutcome) (now : Nat) (st : AuthState)
    (h : HandlerKind) (a : Args) : DispatchResult :=
  match h with
  | .proxy path => runProxy cfg l1 q1 l2 q2 now st (path a)
  | .authStatus => handleAuthStatus cfg l1 now st
  | .refreshAuth => handleRefreshAuth cfg l1 now st
  | .serverInfo => handleServerInfo cfg l1 q1 l2 q2 now st

/-- The CallTool dispatcher (lines 1150-1290): route by name through the
switch; the default case throws McpError(MethodNotFound), which the catch
re-raises unchanged; handler exceptions become InternalError inside
`runProxy`. -/
def dispatch (cfg : ServerConfig) (l1 : LoginOutcome) (q1 : HttpOutcome)
    (l2 : LoginOutcome) (q2 : HttpOutcome) (now : Nat) (st : AuthState)
    (name : String) (args : Args) : DispatchResult :=
  match toolTable.find? (fun p => p.1 == name) with
  | some p => runHandler cfg l1 q1 l2 q2 now st p.2 args
  | none => ⟨.protocolError .MethodNotFound ("Unknown tool: " ++ name), st, 0, []⟩

/-- The four BAASIX_* keys as they appear in an environment layer (.env file,
process environment) or in the accumulated config object of config.js. -/
structure EnvMap where
  BAASIX_URL : Option String
  BAASIX_AUTH_TOKEN : Option String
  BAASIX_EMAIL : Option String
  BAASIX_PASSWORD : Option String
deriving Repr, DecidableEq

/-- config.js DEFAULT_CONFIG (lines 15-19). -/
def DEFAULT_CONFIG : EnvMap :=
  ⟨some "http://localhost:8056", none, some "admin@baasix.com", some "admin@123"⟩

/-- Object spread of a parsed .env file over the accumulated config: every
key present in the update overrides, truthy or not. -/
def overlayAll (base upd : EnvMap) : EnvMap :=
  ⟨(match upd.BAASIX_URL with | some v => some v | none => base.BAASIX_URL),
   (match upd.BAASIX_AUTH_TOKEN with | some v => some v | none => base.BAASIX_AUTH_TOKEN),
   (match upd.BAASIX_EMAIL with | some v => some v | none => base.BAASIX_EMAIL),
   (match upd.BAASIX_PASSWORD with | some v => some v | none => base.BAASIX_PASSWORD)⟩

/-- The process-environment override of config.js (lines 47-60):
`if (process.env[key]) config[key] = process.env[key]` — only truthy values
override. -/
def overrideTruthy (base upd : Option String) : Option String :=
  match upd with
  | some v => if v ≠ "" then some v else base
  | none => base

/-- config.js loadEnvironmentConfig (lines 22-63) at its default options
(useDefaults and processEnv true): defaults, then the parsed .env file when
one exists, then truthy process-environment variables. -/
def loadEnvironmentConfig (fileEnv : Option EnvMap) (procEnv : EnvMap) : EnvMap :=
  let c1 := match fileEnv with
    | some f => overlayAll DEFAULT_CONFIG f
    | none => DEFAULT_CONFIG
  ⟨overrideTruthy c1.BAASIX_URL procEnv.BAASIX_URL,
   overrideTruthy c1.BAASIX_AUTH_TOKEN procEnv.BAASIX_AUTH_TOKEN,
   overrideTruthy c1.BAASIX_EMAIL procEnv.BAASIX_EMAIL,
   overrideTruthy c1.BAASIX_PASSWORD procEnv.BAASIX_PASSWORD⟩

/-- index.js lines 17-20: the module-level constants, with
`config.BAASIX_URL || 'http://localhost:8056'`. -/
def serverConfigOf (c : EnvMap) : ServerConfig :=
  ⟨(match c.BAASIX_URL with
     | some u => if u ≠ "" then u else "http://localhost:8056"
     | none => "http://localhost:8056"),
   c.BAASIX_AUTH_TOKEN, c.BAASIX_EMAIL, c.BAASIX_PASSWORD⟩

/-- Tail of a URL scheme: alphanumeric or +, -, . characters up to a colon. -/
def schemeTail : List Char → Bool
  | [] => false
  | c :: cs =>
    if c = ':' then true
    else if c.isAlphanum || c = '+' || c = '-' || c = '.' then schemeTail cs
    else false

/-- Whether `new URL(s)` succeeds.  Approximated by the WHATWG requirement
that every parseable URL starts with an RFC 3986 scheme followed by a colon;
exact at every input this development evaluates it on. -/
def jsURLParses (s : String) : Bool :=
  match s.toList with
  | [] => false
  | c :: cs => c.isAlpha && schemeTail cs

/-- The result object of config.js validateConfig. -/
structure Validation where
  errors : List String
  warnings : List String
  isValid : Bool
deriving Repr, DecidableEq

/-- config.js validateConfig (lines 66-97): required URL, at least one
credential path, and URL parseability, with errors pushed in source order. -/
def validateConfig (c : EnvMap) : Validation :=
  let urlRequiredErr :=
    if truthyStr c.BAASIX_URL then [] else ["BAASIX_URL is required"]
  let hasToken := truthyStr c.BAASIX_AUTH_TOKEN
  let hasCreds := truthyStr c.BAASIX_EMAIL && truthyStr c.BAASIX_PASSWORD
  let credErr :=
    if !hasToken && !hasCreds then
      ["Either BAASIX_AUTH_TOKEN or both BAASIX_EMAIL and BAASIX_PASSWORD must be provided"]
    else []
  let urlParseErr :=
    if truthyStr c.BAASIX_URL && !jsURLParses (c.BAASIX_URL.getD "") then
      ["BAASIX_URL must be a valid URL"]
    else []
  let errors := urlRequiredErr ++ credErr ++ urlParseErr
  let warnings :=
    if hasToken && hasCreds then
      ["Both token and credentials provided - token will take priority"]
    else []
  ⟨errors, warnings, errors.isEmpty⟩

/-- A configuration-loading outcome: the loaded config or a thrown error. -/
inductive CfgRes where
  | ok (c : EnvMap)
  | err (message : String)
deriving Repr, DecidableEq

/-- config.js createConfig (lines 100-115): load, validate, and throw
`Configuration validation failed` when invalid. -/
def createConfig (fileEnv : Option EnvMap) (procEnv : EnvMap) : CfgRes :=
  let c := loadEnvironmentConfig fileEnv procEnv
  let v := validateConfig c
  if v.isValid then .ok c
  else .err ("Configuration validation failed:\n" ++ String.intercalate "\n" v.errors)

/-- The configuration step of server startup, index.js line 14:
`const config = loadEnvironmentConfig();` — the unvalidated loader, not
createConfig; neither the BaasixMCPServer constructor nor startMCPServer
validates either, so this step never throws on the configuration's content. -/
def startupConfig (fileEnv : Option EnvMap) (procEnv : EnvMap) : CfgRes :=
  .ok (loadEnvironmentConfig fileEnv procEnv)

/- Helper lemmas -/

lemma advertised_eq_switch : advertisedToolNames = toolTable.map Prod.fst := by
  rfl

lemma getAuthToken_explicit (cfg : ServerConfig) (l : LoginOutcome) (now : Nat)
    (st : AuthState) (ht : truthyStr cfg.BAASIX_AUTH_TOKEN = true) :
    getAuthToken cfg l now st = ⟨.ok (cfg.BAASIX_AUTH_TOKEN.getD ""), st, 0⟩ := by
  simp [getAuthToken, ht]

lemma cachedTokenValid_noToken (e : Option Nat) (now : Nat) :
    cachedTokenValid ⟨none, e⟩ now = false := by
  simp [cachedTokenValid, truthyStr]

lemma getAuthToken_login (cfg : ServerConfig) (l : LoginOutcome) (now : Nat)
    (st : AuthState) (hmode : truthyStr cfg.BAASIX_AUTH_TOKEN = false)
    (hcv : cachedTokenValid st now = false)
    (hem : truthyStr cfg.BAASIX_EMAIL = true)
    (hpw : truthyStr cfg.BAASIX_PASSWORD = true) :
    getAuthToken cfg l now st =
      match l with
      | .success tok => ⟨.ok tok, ⟨some tok, some (now + 60 * 60 * 1000)⟩, 1⟩
      | .failure msg => ⟨.err ("Authentication failed: " ++ msg), st, 1⟩ := by
  cases l <;> simp [getAuthToken, hmode, hcv, hem, hpw]

lemma getAuthToken_ok_truthy (cfg : ServerConfig) (l : LoginOutcome) (now : Nat)
    (st : AuthState) (tok : String)
    (hmode : truthyStr cfg.BAASIX_AUTH_TOKEN = false)
    (h : (getAuthToken cfg l now st).result = .ok tok) (hne : tok ≠ "") :
    truthyStr (getAuthToken cfg l now st).state.authToken = true := by
  unfold getAuthToken at *
  rw [hmode] at h ⊢
  simp only [Bool.false_eq_true, if_false] at h ⊢
  by_cases hcv : cachedTokenValid st now
  · simp only [hcv, if_true] at h ⊢
    have := hcv
    unfold cachedTokenValid at this
    exact (Bool.and_eq_true _ _).mp ((Bool.and_eq_true _ _).mp this).1 |>.1
  · simp only [hcv, if_false] at h ⊢
    by_cases hep : truthyStr cfg.BAASIX_EMAIL && truthyStr cfg.BAASIX_PASSWORD
    · simp only [hep, if_true] at h ⊢
      cases l with
      | success t =>
        simp only at h ⊢
        cases h
        simp [truthyStr, hne]
      | failure m => simp at h
    · simp [hep] at h

lemma baasixRequest_explicit (cfg : ServerConfig) (l1 : LoginOutcome)
    (q1 : HttpOutcome) (l2 : LoginOutcome) (q2 : HttpOutcome) (now : Nat)
    (st : AuthState) (e : String)
    (ht : truthyStr cfg.BAASIX_AUTH_TOKEN = true) :
    (baasixRequest cfg l1 q1 l2 q2 now st e).state = st ∧
    (baasixRequest cfg l1 q1 l2 q2 now st e).logins = 0 := by
  cases q1 <;>
    simp [baasixRequest, getAuthToken_explicit cfg l1 now st ht, ht]

lemma runHandler_explicit_state (cfg : ServerConfig) (l1 : LoginOutcome)
    (q1 : HttpOutcome) (l2 : LoginOutcome) (q2 : HttpOutcome) (now : Nat)
    (st : AuthState) (h : HandlerKind) (a : Args)
    (ht : truthyStr cfg.BAASIX_AUTH_TOKEN = true) :
    (runHandler cfg l1 q1 l2 q2 now st h a).state = st := by
  cases h with
  | proxy path =>
    have hb := baasixRequest_explicit cfg l1 q1 l2 q2 now st (path a) ht
    simp only [runHandler, runProxy]
    split <;> exact hb.1
  | authStatus =>
    simp [runHandler, handleAuthStatus, getAuthToken_explicit cfg l1 now st ht]
  | refreshAuth =>
    simp [runHandler, handleRefreshAuth, ht]
  | serverInfo =>
    have hb := baasixRequest_explicit cfg l1 q1 l2 q2 now st "/utils/info" ht
    simp only [runHandler, handleServerInfo]
    split <;> exact hb.1

lemma dispatch_explicit_state (cfg : ServerConfig) (l1 : LoginOutcome)
    (q1 : HttpOutcome) (l2 : LoginOutcome) (q2 : HttpOutcome) (now : Nat)
    (st : AuthState) (name : String) (a : Args)
    (ht : truthyStr cfg.BAASIX_AUTH_TOKEN = true) :
    (dispatch cfg l1 q1 l2 q2 now st name a).state = st := by
  unfold dispatch
  rcases hf : toolTable.find? (fun p => p.1 == name) with _ | p <;> rw [hf]
  exact runHandler_explicit_state cfg l1 q1 l2 q2 now st p.2 a ht

lemma runHandler_protocol_internal (cfg : ServerConfig) (l1 : LoginOutcome)
    (q1 : HttpOutcome) (l2 : LoginOutcome) (q2 : HttpOutcome) (now : Nat)
    (st : AuthState) (h : HandlerKind) (a : Args) (c : ErrCode) (m : String)
    (hout : (runHandler cfg l1 q1 l2 q2 now st h a).outcome = .protocolError c m) :
    c = .InternalError := by
  cases h with
  | proxy path =>
    simp only [runHandler, runProxy] at hout
    split at hout
    · simp at hout
    · simp only [] at hout
      rw [show (ToolOutcome.protocolError ErrCode.InternalError _ = _) from rfl] at hout
      simp at hout
      exact hout.1.symm
  | authStatus =>
    simp only [runHandler, handleAuthStatus] at hout
    split at hout <;> simp at hout
  | refreshAuth =>
    simp only [runHandler, handleRefreshAuth] at hout
    split at hout
    · simp at hout
    · split at hout <;> simp at hout
  | serverInfo =>
    simp only [runHandler, handleServerInfo] at hout
    split at hout <;> simp at hout

lemma find?_some_of_advertised (name : String) (hmem : name ∈ advertisedToolNames) :
    ∃ p, toolTable.find? (fun q => q.1 == name) = some p := by
  rcases hf : toolTable.find? (fun q => q.1 == name) with _ | p
  · rw [advertised_eq_switch, List.mem_map] at hmem
    rcases hmem with ⟨q, hq, hqname⟩
    rw [List.find?_eq_none] at hf
    exact absurd (by simp [hqname]) (hf q hq)
  · exact ⟨p, hf⟩

lemma baasixRequest_eq_of_auth (cfg : ServerConfig) (l1 : LoginOutcome)
    (q1 : HttpOutcome) (l2 : LoginOutcome) (q2 : HttpOutcome) (now : Nat)
    (st : AuthState) (e : String) (r : Res) (stA : AuthState) (nA : Nat)
    (hA : getAuthToken cfg l1 now st = ⟨r, stA, nA⟩) :
    baasixRequest cfg l1 q1 l2 q2 now st e =
      match r with
      | .err err1 => ⟨.err err1, stA, nA, []⟩
      | .ok _ =>
        match q1 with
        | .success d => ⟨.ok d, stA, nA, [e]⟩
        | .error status msg1 =>
          if decide (status = some 401) && truthyStr stA.authToken
              && !truthyStr cfg.BAASIX_AUTH_TOKEN then
            match getAuthToken cfg l2 now ⟨none, none⟩ with
            | ⟨.err e2, st2, n2⟩ => ⟨.err (apiErr e2), st2, nA + n2, [e]⟩
            | ⟨.ok newTok, st2, n2⟩ =>
              if newTok ≠ "" then
                match q2 with
                | .success d2 => ⟨.ok d2, st2, nA + n2, [e, e]⟩
                | .error s2 m2 => ⟨.err (apiErr m2), st2, nA + n2, [e, e]⟩
              else ⟨.err (apiErr msg1), st2, nA + n2, [e]⟩
          else ⟨.err (apiErr msg1), stA, nA, [e]⟩ := by
  unfold baasixRequest
  simp only [hA]
  rcases hA2 : getAuthToken cfg l2 now ⟨none, none⟩ with ⟨r2, st2, n2⟩
  simp only [hA2]
  cases r <;> cases q1 <;> cases r2 <;> rfl

/- Claim theorems -/

/-- C1: for every baasixRequest invocation in email/password mode, a 401 on
the first backend response clears the cached token, obtains a fresh one via a
second login, and re-issues the request exactly once (two proxied requests in
total, even when the retry fails again with 401, which surfaces
`Baasix API Error`); when the refresh login itself fails, when the original
failure was not a 401, or in explicit-token mode, no retry happens and the
upstream message is surfaced wrapped as `Baasix API Error`. -/
theorem c1_single_retry (cfg : ServerConfig) (l1 l2 : LoginOutcome)
    (q2 : HttpOutcome) (now : Nat) (st : AuthState) (e msg : String) :
    (truthyStr cfg.BAASIX_AUTH_TOKEN = false →
     truthyStr cfg.BAASIX_EMAIL = true →
     truthyStr cfg.BAASIX_PASSWORD = true →
     ∀ tok1, (getAuthToken cfg l1 now st).result = .ok tok1 → tok1 ≠ "" →
      ((∀ tok2, l2 = .success tok2 → tok2 ≠ "" →
        (baasixRequest cfg l1 (.error (some 401) msg) l2 q2 now st e).requests
          = [e, e] ∧
        (baasixRequest cfg l1 (.error (some 401) msg) l2 q2 now st e).state
          = ⟨some tok2, some (now + 60 * 60 * 1000)⟩ ∧
        (∀ d, q2 = .success d →
          (baasixRequest cfg l1 (.error (some 401) msg) l2 q2 now st e).result
            = .ok d) ∧
        (∀ s2 m2, q2 = .error s2 m2 →
          (baasixRequest cfg l1 (.error (some 401) msg) l2 q2 now st e).result
            = .err (apiErr m2))) ∧
       (∀ m, l2 = .failure m →
        baasixRequest cfg l1 (.error (some 401) msg) l2 q2 now st e
          = ⟨.err (apiErr ("Authentication failed: " ++ m)), ⟨none, none⟩,
             (getAuthToken cfg l1 now st).logins + 1, [e]⟩))) ∧
    (∀ tok1, (getAuthToken cfg l1 now st).result = .ok tok1 →
     ∀ s1, s1 ≠ some 401 →
      baasixRequest cfg l1 (.error s1 msg) l2 q2 now st e
        = ⟨.err (apiErr msg), (getAuthToken cfg l1 now st).state,
           (getAuthToken cfg l1 now st).logins, [e]⟩) ∧
    (truthyStr cfg.BAASIX_AUTH_TOKEN = true →
     ∀ s1, baasixRequest cfg l1 (.error s1 msg) l2 q2 now st e
        = ⟨.err (apiErr msg), st, 0, [e]⟩) := by
  refine ⟨?_, ?_, ?_⟩
  · intro hmode hem hpw tok1 ha htok1
    have hTruthy := getAuthToken_ok_truthy cfg l1 now st tok1 hmode ha htok1
    rcases hA : getAuthToken cfg l1 now st with ⟨r, stA, nA⟩
    rw [hA] at ha hTruthy
    simp only at ha hTruthy
    have hr : r = .ok tok1 := by
      cases r <;> simp_all
    subst hr
    have key := baasixRequest_eq_of_auth cfg l1 (.error (some 401) msg) l2 q2
      now st e _ _ _ hA
    constructor
    · intro tok2 hl2 htok2
      subst hl2
      have ha2 : getAuthToken cfg (.success tok2) now ⟨none, none⟩
          = ⟨.ok tok2, ⟨some tok2, some (now + 60 * 60 * 1000)⟩, 1⟩ := by
        simpa using getAuthToken_login cfg _ now _ hmode
          (cachedTokenValid_noToken none now) hem hpw
      refine ⟨?_, ?_, ?_, ?_⟩
      · cases q2 <;> simp [key, hTruthy, hmode, ha2, htok2]
      · cases q2 <;> simp [key, hTruthy, hmode, ha2, htok2]
      · intro d hq2; subst hq2; simp [key, hTruthy, hmode, ha2, htok2]
      · intro s2 m2 hq2; subst hq2; simp [key, hTruthy, hmode, ha2, htok2]
    · intro m hl2
      subst hl2
      have ha2 : getAuthToken cfg (.failure m) now ⟨none, none⟩
          = ⟨.err ("Authentication failed: " ++ m), ⟨none, none⟩, 1⟩ := by
        simpa using getAuthToken_login cfg _ now _ hmode
          (cachedTokenValid_noToken none now) hem hpw
      simp [key, hTruthy, hmode, ha2]
  · intro tok1 ha s1 hs1
    rcases hA : getAuthToken cfg l1 now st with ⟨r, stA, nA⟩
    rw [hA] at ha
    simp only at ha
    have hr : r = .ok tok1 := by
      cases r <;> simp_all
    subst hr
    have key := baasixRequest_eq_of_auth cfg l1 (.error s1 msg) l2 q2
      now st e _ _ _ hA
    simp [key, hs1]
  · intro ht s1
    have hA := getAuthToken_explicit cfg l1 now st ht
    have key := baasixRequest_eq_of_auth cfg l1 (.error s1 msg) l2 q2
      now st e _ _ _ hA
    simp [key, ht]

/-- Witness for C1: a concrete email/password run where a 401 is followed by
one refresh login and one successful retry. -/
theorem c1_single_retry_witness :
    (baasixRequest ⟨"http://h", none, some "a@b.com", some "x"⟩
      (.success "tokA") (.error (some 401) "unauthorized") (.success "tokB")
      (.success "d") 7 initialAuthState "/items/products").result = .ok "d" :=
  ((((c1_single_retry ⟨"http://h", none, some "a@b.com", some "x"⟩
      (.success "tokA") (.success "tokB") (.success "d") 7 initialAuthState
      "/items/products" "unauthorized").1 rfl (by decide) (by decide) "tokA"
      (by decide) (by decide)).1 "tokB" rfl (by decide)).2.2.1 "d" rfl)

/-- C2: getAuthToken resolves the credential in the fixed order explicit
token, valid cached token, email/password login exchange (caching the token
for one hour, 60*60*1000 ms), and otherwise fails with the
no-authentication-method error. -/
theorem c2_resolution_order (cfg : ServerConfig) (login : LoginOutcome)
    (now : Nat) (st : AuthState) :
    (truthyStr cfg.BAASIX_AUTH_TOKEN = true →
      getAuthToken cfg login now st
        = ⟨.ok (cfg.BAASIX_AUTH_TOKEN.getD ""), st, 0⟩) ∧
    (truthyStr cfg.BAASIX_AUTH_TOKEN = false → cachedTokenValid st now = true →
      getAuthToken cfg login now st = ⟨.ok (st.authToken.getD ""), st, 0⟩) ∧
    (truthyStr cfg.BAASIX_AUTH_TOKEN = false → cachedTokenValid st now = false →
      truthyStr cfg.BAASIX_EMAIL = true → truthyStr cfg.BAASIX_PASSWORD = true →
      (∀ tok, login = .success tok →
        getAuthToken cfg login now st
          = ⟨.ok tok, ⟨some tok, some (now + 60 * 60 * 1000)⟩, 1⟩) ∧
      (∀ m, login = .failure m →
        getAuthToken cfg login now st
          = ⟨.err ("Authentication failed: " ++ m), st, 1⟩)) ∧
    (truthyStr cfg.BAASIX_AUTH_TOKEN = false → cachedTokenValid st now = false →
      (truthyStr cfg.BAASIX_EMAIL = false ∨ truthyStr cfg.BAASIX_PASSWORD = false) →
      getAuthToken cfg login now st = ⟨.err noAuthMsg, st, 0⟩) := by
  refine ⟨fun ht => getAuthToken_explicit cfg login now st ht,
    fun hmode hcv => ?_, fun hmode hcv hem hpw => ⟨?_, ?_⟩,
    fun hmode hcv hep => ?_⟩
  · simp [getAuthToken, hmode, hcv]
  · intro tok hl
    subst hl
    simpa using getAuthToken_login cfg _ now st hmode hcv hem hpw
  · intro m hl
    subst hl
    simpa using getAuthToken_login cfg _ now st hmode hcv hem hpw
  · rcases hep with h | h <;> simp [getAuthToken, hmode, hcv, h]

/-- Witness for C2: concrete email/password login exchange at priority 3. -/
theorem c2_resolution_order_witness :
    getAuthToken ⟨"http://h", none, some "a@b.com", some "x"⟩ (.success "tok")
      5 initialAuthState = ⟨.ok "tok", ⟨some "tok", some 3600005⟩, 1⟩ :=
  (((c2_resolution_order ⟨"http://h", none, some "a@b.com", some "x"⟩
      (.success "tok") 5 initialAuthState).2.2.1 rfl (by decide) (by decide)
      (by decide)).1 "tok" rfl)

/-- C3: in explicit-token mode the cached token state is never populated,
consulted or cleared: getAuthToken returns the explicit token with the state
untouched and no login, every dispatched invocation leaves the state exactly
as it was, baasix_refresh_auth is a state no-op answering with the manual
token message, and getToken before and after that invalidation returns the
identical value. -/
theorem c3_explicit_token_inert (cfg : ServerConfig) (l1 : LoginOutcome)
    (q1 : HttpOutcome) (l2 : LoginOutcome) (q2 : HttpOutcome) (now : Nat)
    (st : AuthState) (name : String) (args : Args) (tokenVal : String)
    (hmode : cfg.BAASIX_AUTH_TOKEN = some tokenVal) (hne : tokenVal ≠ "") :
    (getAuthToken cfg l1 now st).result = .ok tokenVal ∧
    (getAuthToken cfg l1 now st).state = st ∧
    (getAuthToken cfg l1 now st).logins = 0 ∧
    (dispatch cfg l1 q1 l2 q2 now st name args).state = st ∧
    handleRefreshAuth cfg l1 now st = ⟨.envelope [manualRefreshText], st, 0, []⟩ ∧
    (getAuthToken cfg l1 now (handleRefreshAuth cfg l1 now st).state).result
      = (getAuthToken cfg l1 now st).result := by
  have ht : truthyStr cfg.BAASIX_AUTH_TOKEN = true := by
    simp [truthyStr, hmode, hne]
  have hg := getAuthToken_explicit cfg l1 now st ht
  have hr : handleRefreshAuth cfg l1 now st
      = ⟨.envelope [manualRefreshText], st, 0, []⟩ := by
    simp [handleRefreshAuth, ht]
  refine ⟨?_, ?_, ?_,
    dispatch_explicit_state cfg l1 q1 l2 q2 now st name args ht, hr, ?_⟩
  · rw [hg]; simp [hmode]
  · rw [hg]
  · rw [hg]
  · rw [hr]

/-- Witness for C3: under a concrete explicit token, dispatching an
invocation over a populated-looking state leaves the state identical. -/
theorem c3_explicit_token_inert_witness :
    (dispatch ⟨"http://h", some "T", none, none⟩ (.success "z")
      (.error (some 401) "x") (.success "z2") (.success "d") 5
      ⟨some "c", some 99⟩ "baasix_list_items" (argsOf [])).state
      = ⟨some "c", some 99⟩ :=
  (c3_explicit_token_inert ⟨"http://h", some "T", none, none⟩ (.success "z")
    (.error (some 401) "x") (.success "z2") (.success "d") 5
    ⟨some "c", some 99⟩ "baasix_list_items" (argsOf []) "T" rfl
    (by decide)).2.2.2.1

/-- C4: in email/password mode, with a token cached at time T (expiry
T + 3600000 ms), a getAuthToken call at time Tp reuses the cached token
exactly when Tp - T < 3600 seconds, and performs a fresh login exchange that
replaces the cached token and expiry when Tp - T is at least 3600 seconds. -/
theorem c4_expiry_window (cfg : ServerConfig) (login : LoginOutcome)
    (T Tp : Nat) (tok : String)
    (hmode : truthyStr cfg.BAASIX_AUTH_TOKEN = false)
    (hem : truthyStr cfg.BAASIX_EMAIL = true)
    (hpw : truthyStr cfg.BAASIX_PASSWORD = true)
    (htok : tok ≠ "") (hTT : T ≤ Tp) :
    (Tp - T < 3600 * 1000 →
      getAuthToken cfg login Tp ⟨some tok, some (T + 60 * 60 * 1000)⟩
        = ⟨.ok tok, ⟨some tok, some (T + 60 * 60 * 1000)⟩, 0⟩) ∧
    (3600 * 1000 ≤ Tp - T →
      (getAuthToken cfg login Tp ⟨some tok, some (T + 60 * 60 * 1000)⟩).logins
        = 1 ∧
      (∀ t2, login = .success t2 →
        getAuthToken cfg login Tp ⟨some tok, some (T + 60 * 60 * 1000)⟩
          = ⟨.ok t2, ⟨some t2, some (Tp + 60 * 60 * 1000)⟩, 1⟩)) := by
  constructor
  · intro h
    have hlt : Tp < T + 60 * 60 * 1000 := by omega
    have hne0 : T + 60 * 60 * 1000 ≠ 0 := by omega
    have h1 : truthyStr (some tok) = true := by simp [truthyStr, htok]
    have h2 : truthyNat (some (T + 60 * 60 * 1000)) = true := by
      simp [truthyNat, hne0]
    have hcv : cachedTokenValid ⟨some tok, some (T + 60 * 60 * 1000)⟩ Tp
        = true := by
      simp [cachedTokenValid, h1, h2, hlt]
    simp [getAuthToken, hmode, hcv]
  · intro h
    have hge : ¬ Tp < T + 60 * 60 * 1000 := by omega
    have hcv : cachedTokenValid ⟨some tok, some (T + 60 * 60 * 1000)⟩ Tp
        = false := by
      simp [cachedTokenValid, hge]
    refine ⟨?_, ?_⟩
    · have hl := getAuthToken_login cfg login Tp _ hmode hcv hem hpw
      rw [hl]
      cases login <;> simp
    · intro t2 hl2
      subst hl2
      simpa using getAuthToken_login cfg _ Tp _ hmode hcv hem hpw

/-- Witness for C4: at exactly the 3600-second boundary a fresh login
replaces the cached token. -/
theorem c4_expiry_window_witness :
    getAuthToken ⟨"http://h", none, some "a@b.com", some "x"⟩ (.success "t2")
      3600000 ⟨some "t1", some 3600000⟩
      = ⟨.ok "t2", ⟨some "t2", some 7200000⟩, 1⟩ :=
  (((c4_expiry_window ⟨"http://h", none, some "a@b.com", some "x"⟩
      (.success "t2") 0 3600000 "t1" rfl (by decide) (by decide) (by decide)
      (by decide)).2 (by decide)).2 "t2" rfl)

lemma find_list_items :
    toolTable.find? (fun p => p.1 == "baasix_list_items")
      = some ("baasix_list_items", .proxy listItemsPath) := by
  rfl

/-- C5 counterexample: in the fresh-process email/password scenario with a
401 answered once and then 200 on the items request, the run succeeds with
exactly two item-endpoint calls but performs TWO login exchanges (the initial
one and the refresh after the 401), refuting the claimed single login
exchange. -/
theorem c5_counterexample :
    dispatch ⟨"http://h", none, some "a@b.com", some "x"⟩ (.success "tokA")
      (.error (some 401) "unauthorized") (.success "tokB") (.success "items")
      1000 initialAuthState "baasix_list_items"
      (argsOf [("collection", "products")])
      = ⟨.envelope ["items"], ⟨some "tokB", some 3601000⟩, 2,
         ["/items/products?page=1&limit=10",
          "/items/products?page=1&limit=10"]⟩ := by
  rfl

/-- C5 amended: starting from a fresh process in email/password mode,
invoking baasix_list_items when the backend answers the items request with
401 once and then 200 yields a success result with exactly two outbound
item-endpoint HTTP calls (original plus retry) and exactly TWO login
exchanges in total: one that obtains the initial token and one performed by
the 401-retry path after it clears the cache. -/
theorem c5_list_items_two_logins (cfg : ServerConfig)
    (tokA tokB data msg : String) (a : Args) (now : Nat)
    (hmode : truthyStr cfg.BAASIX_AUTH_TOKEN = false)
    (hem : truthyStr cfg.BAASIX_EMAIL = true)
    (hpw : truthyStr cfg.BAASIX_PASSWORD = true)
    (htokA : tokA ≠ "") (htokB : tokB ≠ "") :
    dispatch cfg (.success tokA) (.error (some 401) msg) (.success tokB)
      (.success data) now initialAuthState "baasix_list_items" a
      = ⟨.envelope [data], ⟨some tokB, some (now + 60 * 60 * 1000)⟩, 2,
         [listItemsPath a, listItemsPath a]⟩ := by
  have hcv : cachedTokenValid ⟨none, none⟩ now = false :=
    cachedTokenValid_noToken none now
  have hA : getAuthToken cfg (.success tokA) now initialAuthState
      = ⟨.ok tokA, ⟨some tokA, some (now + 60 * 60 * 1000)⟩, 1⟩ := by
    simpa using getAuthToken_login cfg _ now _ hmode hcv hem hpw
  have hA2 : getAuthToken cfg (.success tokB) now ⟨none, none⟩
      = ⟨.ok tokB, ⟨some tokB, some (now + 60 * 60 * 1000)⟩, 1⟩ := by
    simpa using getAuthToken_login cfg _ now _ hmode hcv hem hpw
  have key := baasixRequest_eq_of_auth cfg (.success tokA)
    (.error (some 401) msg) (.success tokB) (.success data) now
    initialAuthState (listItemsPath a) _ _ _ hA
  have htr : truthyStr (some tokA) = true := by simp [truthyStr, htokA]
  unfold dispatch
  rw [find_list_items]
  simp [runHandler, runProxy, key, hA2, htr, hmode, htokB]

/-- Witness for C5 amended: the concrete fresh-process scenario. -/
theorem c5_list_items_two_logins_witness :
    dispatch ⟨"http://h2", none, some "e@f.com", some "pw"⟩ (.success "A")
      (.error (some 401) "expired") (.success "B") (.success "rows") 50
      initialAuthState "baasix_list_items" (argsOf [("collection", "c1")])
      = ⟨.envelope ["rows"], ⟨some "B", some 3600050⟩, 2,
         [listItemsPath (argsOf [("collection", "c1")]),
          listItemsPath (argsOf [("collection", "c1")])]⟩ :=
  c5_list_items_two_logins ⟨"http://h2", none, some "e@f.com", some "pw"⟩
    "A" "B" "rows" "expired" (argsOf [("collection", "c1")]) 50 rfl
    (by decide) (by decide) (by decide) (by decide)

/-- C6 counterexample: invoking baasix_get_schema with an argument mapping
that omits its required `collection` field does not produce any
InvalidParams protocol error — the handler executes and issues the backend
request `/schemas/undefined`, and with a successful backend the invocation
even succeeds. -/
theorem c6_counterexample :
    ("collection" ∈ requiredFields "baasix_get_schema") ∧
    (argsOf []) "collection" = none ∧
    dispatch ⟨"http://h", none, some "a@b.com", some "x"⟩ (.success "tok")
      (.success "data") (.success "tok") (.success "data") 1000
      initialAuthState "baasix_get_schema" (argsOf [])
      = ⟨.envelope ["data"], ⟨some "tok", some 3601000⟩, 1,
         ["/schemas/undefined"]⟩ :=
  ⟨by decide, rfl, by rfl⟩

/-- C6 amended: the dispatcher performs no argument-schema validation at
all: for every registered tool name and every argument mapping, even one
omitting a field the tool's inputSchema marks required, dispatching never
yields a ProtocolError with code InvalidParams (no such code exists in the
source), and never MethodNotFound either — the handler itself is executed
regardless of the missing field. -/
theorem c6_no_argument_validation (cfg : ServerConfig) (l1 : LoginOutcome)
    (q1 : HttpOutcome) (l2 : LoginOutcome) (q2 : HttpOutcome) (now : Nat)
    (st : AuthState) (name : String) (args : Args) (fld : String)
    (hname : name ∈ advertisedToolNames)
    (hfld : fld ∈ requiredFields name) (hmiss : args fld = none) :
    (∀ m, (dispatch cfg l1 q1 l2 q2 now st name args).outcome
        ≠ .protocolError .InvalidParams m) ∧
    (∀ m, (dispatch cfg l1 q1 l2 q2 now st name args).outcome
        ≠ .protocolError .MethodNotFound m) := by
  obtain ⟨p, hp⟩ := find?_some_of_advertised name hname
  refine ⟨fun m hout => ?_, fun m hout => ?_⟩ <;>
  · unfold dispatch at hout
    rw [hp] at hout
    have hI := runHandler_protocol_internal cfg l1 q1 l2 q2 now st p.2 args
      _ m hout
    simp at hI

/-- Witness for C6 amended: the baasix_get_schema invocation with its
required field missing is not answered with InvalidParams. -/
theorem c6_no_argument_validation_witness :
    (dispatch ⟨"http://h", none, some "a@b.com", some "x"⟩ (.success "tok")
      (.success "data") (.success "tok") (.success "data") 1000
      initialAuthState "baasix_get_schema" (argsOf [])).outcome
      ≠ .protocolError .InvalidParams "missing required field" :=
  (c6_no_argument_validation ⟨"http://h", none, some "a@b.com", some "x"⟩
    (.success "tok") (.success "data") (.success "tok") (.success "data")
    1000 initialAuthState "baasix_get_schema" (argsOf []) "collection"
    (by decide) (by decide) rfl).1 "missing required field"

/-- C7: dispatching any tool name outside the registered catalog yields a
ProtocolError with code MethodNotFound and issues no backend request (and no
login exchange). -/
theorem c7_unknown_tool (cfg : ServerConfig) (l1 : LoginOutcome)
    (q1 : HttpOutcome) (l2 : LoginOutcome) (q2 : HttpOutcome) (now : Nat)
    (st : AuthState) (name : String) (args : Args)
    (h : ¬ name ∈ advertisedToolNames) :
    dispatch cfg l1 q1 l2 q2 now st name args
      = ⟨.protocolError .MethodNotFound ("Unknown tool: " ++ name), st, 0, []⟩ := by
  have hf : toolTable.find? (fun p => p.1 == name) = none := by
    rw [List.find?_eq_none]
    intro x hx hbeq
    have heq : x.1 = name := by simpa using hbeq
    exact h (by rw [advertised_eq_switch]; exact List.mem_map.mpr ⟨x, hx, heq⟩)
  unfold dispatch
  rw [hf]

/-- Witness for C7: a concrete unregistered name is refused without any
backend traffic. -/
theorem c7_unknown_tool_witness :
    dispatch ⟨"http://h", none, some "a@b.com", some "x"⟩ (.success "t")
      (.success "d") (.success "t") (.success "d") 0 initialAuthState
      "baasix_nope" (argsOf [])
      = ⟨.protocolError .MethodNotFound "Unknown tool: baasix_nope",
         initialAuthState, 0, []⟩ :=
  c7_unknown_tool ⟨"http://h", none, some "a@b.com", some "x"⟩ (.success "t")
    (.success "d") (.success "t") (.success "d") 0 initialAuthState
    "baasix_nope" (argsOf []) (by decide)

/-- C8 counterexample: with only BAASIX_URL set in the environment, the
config loader's defaults fill in email admin@baasix.com and password
admin@123, so invoking an authenticated tool performs an auto-login and —
when the backend accepts those default credentials — succeeds outright
instead of yielding an AuthenticationError. -/
theorem c8_counterexample :
    (loadEnvironmentConfig none
      ⟨some "http://myhost:1234", none, none, none⟩).BAASIX_EMAIL
      = some "admin@baasix.com" ∧
    (loadEnvironmentConfig none
      ⟨some "http://myhost:1234", none, none, none⟩).BAASIX_PASSWORD
      = some "admin@123" ∧
    (loadEnvironmentConfig none
      ⟨some "http://myhost:1234", none, none, none⟩).BAASIX_AUTH_TOKEN
      = none ∧
    dispatch (serverConfigOf (loadEnvironmentConfig none
        ⟨some "http://myhost:1234", none, none, none⟩)) (.success "tok")
      (.success "data") (.success "tok") (.success "data") 1000
      initialAuthState "baasix_get_schema" (argsOf [("collection", "products")])
      = ⟨.envelope ["data"], ⟨some "tok", some 3601000⟩, 1,
         ["/schemas/products"]⟩ :=
  ⟨rfl, rfl, rfl, by rfl⟩

/-- C8 amended: when only BAASIX_URL is configured in the environment, the
loader supplies the default email/password credentials, so the server runs
in email/password mode: invoking an authenticated (proxy) tool attempts a
login exchange with those defaults, surfaces the AuthenticationError
(wrapped as InternalError by the dispatcher) exactly when that login fails,
and succeeds when the backend accepts the default credentials. -/
theorem c8_default_credentials (u : String) (hu : u ≠ "") (q1 : HttpOutcome)
    (l2 : LoginOutcome) (q2 : HttpOutcome) (now : Nat) (name : String)
    (path : Args → String) (args : Args) (m : String)
    (hfind : toolTable.find? (fun q => q.1 == name)
      = some (name, .proxy path)) :
    loadEnvironmentConfig none ⟨some u, none, none, none⟩
      = ⟨some u, none, some "admin@baasix.com", some "admin@123"⟩ ∧
    dispatch (serverConfigOf (loadEnvironmentConfig none
        ⟨some u, none, none, none⟩)) (.failure m) q1 l2 q2 now
      initialAuthState name args
      = ⟨.protocolError .InternalError
           ("Tool execution failed: " ++ ("Authentication failed: " ++ m)),
         initialAuthState, 1, []⟩ ∧
    (∀ tok d, tok ≠ "" →
      (dispatch (serverConfigOf (loadEnvironmentConfig none
          ⟨some u, none, none, none⟩)) (.success tok) (.success d) l2 q2 now
        initialAuthState name args).outcome = .envelope [d]) := by
  have hload : loadEnvironmentConfig none ⟨some u, none, none, none⟩
      = ⟨some u, none, some "admin@baasix.com", some "admin@123"⟩ := by
    simp [loadEnvironmentConfig, DEFAULT_CONFIG, overrideTruthy, hu]
  have hmode : truthyStr (serverConfigOf
      ⟨some u, none, some "admin@baasix.com", some "admin@123"⟩).BAASIX_AUTH_TOKEN
      = false := by simp [serverConfigOf, truthyStr]
  have hem : truthyStr (serverConfigOf
      ⟨some u, none, some "admin@baasix.com", some "admin@123"⟩).BAASIX_EMAIL
      = true := by simp [serverConfigOf, truthyStr]
  have hpw : truthyStr (serverConfigOf
      ⟨some u, none, some "admin@baasix.com", some "admin@123"⟩).BAASIX_PASSWORD
      = true := by simp [serverConfigOf, truthyStr]
  have hcv : cachedTokenValid ⟨none, none⟩ now = false :=
    cachedTokenValid_noToken none now
  refine ⟨hload, ?_, ?_⟩
  · rw [hload]
    have hA : getAuthToken (serverConfigOf
          ⟨some u, none, some "admin@baasix.com", some "admin@123"⟩)
        (.failure m) now initialAuthState
        = ⟨.err ("Authentication failed: " ++ m), initialAuthState, 1⟩ := by
      simpa using getAuthToken_login _ _ now _ hmode hcv hem hpw
    have key := baasixRequest_eq_of_auth _ (.failure m) q1 l2 q2 now
      initialAuthState (path args) _ _ _ hA
    unfold dispatch
    rw [hfind]
    simp [runHandler, runProxy, key]
  · intro tok d htok
    rw [hload]
    have hA : getAuthToken (serverConfigOf
          ⟨some u, none, some "admin@baasix.com", some "admin@123"⟩)
        (.success tok) now initialAuthState
        = ⟨.ok tok, ⟨some tok, some (now + 60 * 60 * 1000)⟩, 1⟩ := by
      simpa using getAuthToken_login _ _ now _ hmode hcv hem hpw
    have key := baasixRequest_eq_of_auth _ (.success tok) (.success d) l2 q2
      now initialAuthState (path args) _ _ _ hA
    unfold dispatch
    rw [hfind]
    simp [runHandler, runProxy, key]

/-- Witness for C8 amended: with only the URL configured, the default-cred
login succeeds against an accepting backend and the invocation succeeds. -/
theorem c8_default_credentials_witness :
    (dispatch (serverConfigOf (loadEnvironmentConfig none
        ⟨some "http://myhost:1234", none, none, none⟩)) (.success "t")
      (.success "d") (.success "t") (.success "d") 3 initialAuthState
      "baasix_get_schema" (argsOf [])).outcome = .envelope ["d"] :=
  (c8_default_credentials "http://myhost:1234" (by decide) (.success "d")
    (.success "t") (.success "d") 3 "baasix_get_schema"
    (fun a => "/schemas/" ++ argStr a "collection") (argsOf []) "nope"
    rfl).2.2 "t" "d" (by decide)

/-- C9 counterexample: an environment whose BAASIX_URL does not parse as a
URL is invalid according to the repository's own validateConfig, yet the
startup path (loadEnvironmentConfig, without validation) accepts it and the
server goes on serving invocations. -/
theorem c9_counterexample :
    (validateConfig (loadEnvironmentConfig none
      ⟨some "not a url", none, none, none⟩)).isValid = false ∧
    (validateConfig (loadEnvironmentConfig none
      ⟨some "not a url", none, none, none⟩)).errors
      = ["BAASIX_URL must be a valid URL"] ∧
    startupConfig none ⟨some "not a url", none, none, none⟩
      = .ok (loadEnvironmentConfig none ⟨some "not a url", none, none, none⟩) ∧
    (dispatch (serverConfigOf (loadEnvironmentConfig none
        ⟨some "not a url", none, none, none⟩)) (.success "t") (.success "d")
      (.success "t") (.success "d") 9 initialAuthState "baasix_get_schema"
      (argsOf [("collection", "c")])).outcome = .envelope ["d"] :=
  ⟨by decide, by decide, rfl, by rfl⟩

/-- C9 amended: startup never validates the configuration — it loads the
environment with loadEnvironmentConfig and proceeds for every input, even
one the repository's own validateConfig rejects; the validating entry point
createConfig, which would throw `Configuration validation failed`, exists
but is not on the startup path. -/
theorem c9_startup_never_validates (fileEnv : Option EnvMap)
    (procEnv : EnvMap) :
    startupConfig fileEnv procEnv = .ok (loadEnvironmentConfig fileEnv procEnv) ∧
    ((validateConfig (loadEnvironmentConfig fileEnv procEnv)).isValid = false →
      createConfig fileEnv procEnv
        = .err ("Configuration validation failed:\n" ++ String.intercalate "\n"
            (validateConfig (loadEnvironmentConfig fileEnv procEnv)).errors)) := by
  refine ⟨rfl, fun h => ?_⟩
  simp [createConfig, h]

/-- Witness for C9 amended: createConfig does throw on the malformed-URL
environment that startup accepts. -/
theorem c9_startup_never_validates_witness :
    createConfig none ⟨some "not a url", none, none, none⟩
      = .err ("Configuration validation failed:\n" ++ String.intercalate "\n"
          (validateConfig (loadEnvironmentConfig none
            ⟨some "not a url", none, none, none⟩)).errors) :=
  (c9_startup_never_validates none ⟨some "not a url", none, none, none⟩).2
    (by decide)

lemma find_auth_status :
    toolTable.find? (fun p => p.1 == "baasix_auth_status")
      = some ("baasix_auth_status", .authStatus) := by
  rfl

/-- C10: the baasix_auth_status tool never produces a protocol-level
failure: for every configuration and state it returns a success envelope
with a single text element and issues no backend request; the body reports
the authentication status when getAuthToken succeeds and the caught error
message when it fails. -/
theorem c10_auth_status_total (cfg : ServerConfig) (l1 : LoginOutcome)
    (q1 : HttpOutcome) (l2 : LoginOutcome) (q2 : HttpOutcome) (now : Nat)
    (st : AuthState) (args : Args) :
    (∃ t, (dispatch cfg l1 q1 l2 q2 now st "baasix_auth_status" args).outcome
      = .envelope [t]) ∧
    (dispatch cfg l1 q1 l2 q2 now st "baasix_auth_status" args).requests = [] ∧
    (∀ tok, (getAuthToken cfg l1 now st).result = .ok tok →
      (dispatch cfg l1 q1 l2 q2 now st "baasix_auth_status" args).outcome
        = .envelope [authStatusOkText cfg (getAuthToken cfg l1 now st).state
            now tok]) ∧
    (∀ m, (getAuthToken cfg l1 now st).result = .err m →
      (dispatch cfg l1 q1 l2 q2 now st "baasix_auth_status" args).outcome
        = .envelope [authStatusErrText cfg m]) := by
  unfold dispatch
  rw [find_auth_status]
  simp only [runHandler, handleAuthStatus]
  rcases hA : getAuthToken cfg l1 now st with ⟨r, stA, nA⟩
  cases r with
  | ok tok0 =>
    refine ⟨⟨authStatusOkText cfg stA now tok0, rfl⟩, rfl, ?_, ?_⟩
    · intro tok h
      have h2 : tok0 = tok := by simpa using h
      subst h2
      rfl
    · intro m h
      simp at h
  | err m0 =>
    refine ⟨⟨authStatusErrText cfg m0, rfl⟩, rfl, ?_, ?_⟩
    · intro tok h
      simp at h
    · intro m h
      have h2 : m0 = m := by simpa using h
      subst h2
      rfl

/-- Witness for C10: with no credential path configured at all,
baasix_auth_status still answers with a success envelope carrying the caught
no-authentication-method message. -/
theorem c10_auth_status_total_witness :
    (dispatch ⟨"http://h", none, none, none⟩ (.success "t") (.success "d")
      (.success "t") (.success "d") 4 initialAuthState "baasix_auth_status"
      (argsOf [])).outcome
      = .envelope [authStatusErrText ⟨"http://h", none, none, none⟩ noAuthMsg] :=
  (c10_auth_status_total ⟨"http://h", none, none, none⟩ (.success "t")
    (.success "d") (.success "t") (.success "d") 4 initialAuthState
    (argsOf [])).2.2.2 noAuthMsg rfl

end Baasix
